import Mathlib

/-!
Shallow embedding of the Taproot Asset auxiliary traffic shaper
(`tapchannel/aux_traffic_shaper.go`): channel classification
(`HandleTraffic`), bandwidth estimation (`PaymentBandwidth`) and HTLC
payload rewriting (`ProduceHtlcExtraData`). Go `uint64` arithmetic is
modelled on `Nat` with explicit reduction modulo `2 ^ 64` wherever the
source performs `uint64` operations.
-/

namespace AuxShaper

/-- The Go `uint64` modulus. -/
def U64 : Nat := 2 ^ 64

/-- An opaque TLV blob: a byte sequence (`tlv.Blob`). -/
abbrev Blob := List Nat

/-- One entry of the asset-amount list of an HTLC record
(`rfqmsg.AssetBalance`): an asset identifier and a `uint64` amount. -/
structure AssetBalance where
  assetId : Nat
  amount : Nat
deriving DecidableEq

/-- A decoded HTLC record (`rfqmsg.Htlc`): its asset balances
(`Amounts.Val.Balances`) and its optional RFQ identifier
(`RfqID.ValOpt`). -/
structure HtlcRecord where
  amounts : List AssetBalance
  rfqID : Option Nat
deriving DecidableEq

/-- A decoded commitment (`cmsg.Commitment`), reduced to the asset-unit
values of its local outputs, which is all `PaymentBandwidth` reads. -/
structure Commitment where
  localOutputs : List Nat
deriving DecidableEq

/-- An accepted sell quote (`rfqmsg.SellAccept`): `BidPrice` in
milli-satoshis per asset unit, and an optional asset identifier
(`AssetID` is a nilable pointer in the source). -/
structure Quote where
  bidPrice : Nat
  assetID : Option Nat
deriving DecidableEq

/-- Sum of the asset amounts of an HTLC record
(`rfqmsg` amount summation), with `uint64` wrapping addition. -/
def sumBalances (bs : List AssetBalance) : Nat :=
  bs.foldl (fun acc b => (acc + b.amount) % U64) 0

/-- `cmsg.OutputSum` over the local outputs of the commitment, with
`uint64` wrapping addition. -/
def outputSum (outs : List Nat) : Nat :=
  outs.foldl (fun acc v => (acc + v) % U64) 0

/-- `btcutil.MaxSatoshi`: the number of satoshis ever in existence,
21 million BTC at 100 million satoshis each. -/
def maxSatoshi : Nat := 21000000 * 100000000

/-- `lnwire.NewMSatFromSatoshis`: satoshis to milli-satoshis, computed
in `uint64`. -/
def newMSatFromSatoshis (sat : Nat) : Nat := (sat * 1000) % U64

/-- Modelled from the spec: `DefaultOnChainHtlcAmount` is
`lnwallet.DustLimitForSize(input.UnknownWitnessSize)`, the chain-defined
dust floor in satoshis for the smallest forwarded on-chain output. The
library computing it is external to `src/`; its value is 354 satoshis. -/
def DefaultOnChainHtlcAmount : Nat := 354

/-- Modelled from the spec: the external collaborators the engine
consumes through interfaces only. The TLV codec layer
(`cmsg.DecodeOpenChannel`, `cmsg.DecodeCommitment`, `rfqmsg.DecodeHtlc`,
`lnwire.CustomRecords.Serialize`, `Htlc.Bytes`), the SCID derivation
from an RFQ identifier, and the read-only accepted-quote lookup
(`rfq.Manager.PeerAcceptedSellQuotes`) all live outside `src/` and are
abstracted here as an environment of pure functions. HTLC custom
records are a finite association list of record type and value bytes. -/
structure Env where
  decodeOpenChannel : Blob → Option Unit
  decodeCommitment : Blob → Option Commitment
  decodeHtlc : Blob → Option HtlcRecord
  serializeRecords : List (Nat × Blob) → Option Blob
  encodeHtlc : HtlcRecord → Blob
  scid : Nat → Nat
  quotes : Nat → Option Quote

/-- The distinct error conditions the shaper reports; each constructor
corresponds to one distinct error return in the source. -/
inductive ShaperErr where
  | noBlobs
  | decodeOpenChannelFailed
  | decodeCommitmentFailed
  | decodeHtlcFailed
  | serializeFailed
  | noRfqIDPresent
  | noQuoteFound (rfqID : Nat) (scid : Nat)
  | noAssetIDInQuote
deriving DecidableEq

/-- `HandleTraffic` (the classifier): absent funding blob means not a
custom channel; a present blob is classified by attempting to decode it
as an open-channel record. Returns the Go pair (isAssetChannel, error). -/
def handleTraffic (env : Env) (fundingBlob : Option Blob) :
    Bool × Option ShaperErr :=
  match fundingBlob with
  | none => (false, none)
  | some blob =>
    match env.decodeOpenChannel blob with
    | none => (false, some .decodeOpenChannelFailed)
    | some _ => (true, none)

/-- `PaymentBandwidth` (the bandwidth estimator): available bandwidth in
milli-satoshis for a custom channel, decided by the HTLC blob and the
commitment blob. Returns the Go pair (milli-satoshis, error). The final
multiplication is `uint64` and therefore reduced modulo `2 ^ 64`. -/
def paymentBandwidth (env : Env) (htlcBlob commitmentBlob : Option Blob) :
    Nat × Option ShaperErr :=
  match commitmentBlob, htlcBlob with
  | none, _ => (0, some .noBlobs)
  | _, none => (0, some .noBlobs)
  | some commitmentBytes, some htlcBytes =>
    match env.decodeCommitment commitmentBytes with
    | none => (0, some .decodeCommitmentFailed)
    | some commitment =>
      match env.decodeHtlc htlcBytes with
      | none => (0, some .decodeHtlcFailed)
      | some htlc =>
        let localBalance := outputSum commitment.localOutputs
        let htlcAssetAmount := sumBalances htlc.amounts
        if htlcAssetAmount ≠ 0 ∧ htlcAssetAmount ≤ localBalance then
          (newMSatFromSatoshis maxSatoshi, none)
        else
          match htlc.rfqID with
          | none => (0, none)
          | some rfqID =>
            match env.quotes (env.scid rfqID) with
            | none => (0, some (.noQuoteFound rfqID (env.scid rfqID)))
            | some quote =>
              ((localBalance * quote.bidPrice) % U64, none)

/-- `ProduceHtlcExtraData` (the payload rewriter): based on the custom
records of an outgoing HTLC, may produce a new blob and change the
milli-satoshi amount the HTLC carries. Returns the Go triple
(adjustedMSat, newBlob, error). The unit computation
`uint64(totalAmount*10/mSatPerAssetUnit) / 10` is `uint64` arithmetic:
the product wraps modulo `2 ^ 64` before the divisions. -/
def produceHtlcExtraData (env : Env) (totalAmount : Nat)
    (htlcCustomRecords : List (Nat × Blob)) :
    Nat × Option Blob × Option ShaperErr :=
  if htlcCustomRecords.isEmpty then
    (totalAmount, none, none)
  else
    match env.serializeRecords htlcCustomRecords with
    | none => (0, none, some .serializeFailed)
    | some htlcBlob =>
      match env.decodeHtlc htlcBlob with
      | none => (0, none, some .decodeHtlcFailed)
      | some htlc =>
        if sumBalances htlc.amounts > 0 then
          (totalAmount, some htlcBlob, none)
        else
          match htlc.rfqID with
          | none => (0, none, some .noRfqIDPresent)
          | some rfqID =>
            match env.quotes (env.scid rfqID) with
            | none => (0, none, some (.noQuoteFound rfqID (env.scid rfqID)))
            | some quote =>
              let numAssetUnits := totalAmount * 10 % U64 / quote.bidPrice / 10
              match quote.assetID with
              | none => (0, none, some .noAssetIDInQuote)
              | some assetID =>
                (newMSatFromSatoshis DefaultOnChainHtlcAmount,
                 some (env.encodeHtlc
                   { htlc with amounts := [⟨assetID, numAssetUnits⟩] }),
                 none)

/-- The formula the claims state for the unit count: the quotient
rounded to the nearest tenth of a unit, then truncated to an integer
unit count, on exact rationals. Rounding half up:
round(10t/b) = floor((20t + b) / (2b)). -/
def claimNumUnits (totalAmount bidPrice : Nat) : Nat :=
  (20 * totalAmount + bidPrice) / (2 * bidPrice) / 10

/-- A concrete environment for instantiating the theorems: its codec
reads tiny transparent encodings. An HTLC blob is a first byte holding
the asset amount (zero meaning no balances) followed by an optional RFQ
identifier byte; a commitment blob lists the local output values; the
serializer keeps the record types; the HTLC encoder lists the amounts. -/
def testEnv : Env where
  decodeOpenChannel := fun b => if b = [1] then some () else none
  decodeCommitment := fun b => some { localOutputs := b }
  decodeHtlc := fun b =>
    match b with
    | [] => none
    | amt :: rest =>
      some { amounts := if amt = 0 then [] else [⟨7, amt⟩],
             rfqID := rest.head? }
  serializeRecords := fun rs => some (rs.map Prod.fst)
  encodeHtlc := fun h => h.amounts.map AssetBalance.amount
  scid := fun r => r
  quotes := fun s =>
    if s = 1 then some { bidPrice := 1000, assetID := some 7 }
    else if s = 2 then some { bidPrice := 2, assetID := some 7 }
    else none


/-- C1 is false as stated: at bidPrice 1000 and totalNativeAmount 12960
the code writes 12 asset units into the rewritten HTLC, while the claimed
formula, the quotient 12.96 rounded to the nearest tenth (13.0) and then
truncated to an integer, gives 13. -/
theorem numUnits_not_round_counterexample :
    (produceHtlcExtraData testEnv 12960 [(0, []), (1, [])]).2.1 =
      some [12] ∧
    claimNumUnits 12960 1000 = 13 ∧ (12 : Nat) ≠ 13 := by decide

/-- C1 (amended): on the rewrite path, the asset-unit count written into
the rewritten HTLC is totalAmount * 10 % 2 ^ 64 / bidPrice / 10 — the
quotient truncated (not rounded to the nearest) at the tenth of a unit
and then truncated to an integer unit count; whenever totalAmount * 10
does not overflow, this equals plain truncating integer division
totalAmount / bidPrice. At bidPrice 1000 and totalAmount 12345 the count
is 12, as the claim computes. -/
theorem produceHtlcExtraData_numUnits (env : Env) (totalAmount : Nat)
    (records : List (Nat × Blob)) (blob : Blob) (htlc : HtlcRecord)
    (rfqID : Nat) (quote : Quote) (assetID : Nat)
    (hne : records.isEmpty = false)
    (hser : env.serializeRecords records = some blob)
    (hdec : env.decodeHtlc blob = some htlc)
    (hsum : sumBalances htlc.amounts = 0)
    (hrfq : htlc.rfqID = some rfqID)
    (hq : env.quotes (env.scid rfqID) = some quote)
    (haid : quote.assetID = some assetID)
    ( _hbid : 0 < quote.bidPrice) :
    produceHtlcExtraData env totalAmount records =
      (newMSatFromSatoshis DefaultOnChainHtlcAmount,
       some (env.encodeHtlc { htlc with amounts :=
         [⟨assetID, totalAmount * 10 % U64 / quote.bidPrice / 10⟩] }),
       none) ∧
    (totalAmount * 10 < U64 →
      totalAmount * 10 % U64 / quote.bidPrice / 10 =
        totalAmount / quote.bidPrice) := by
  constructor
  · simp [produceHtlcExtraData, hne, hser, hdec, hsum, hrfq, hq, haid]
  · intro hlt
    rw [Nat.mod_eq_of_lt hlt, Nat.div_div_eq_div_mul,
      mul_comm totalAmount 10, mul_comm quote.bidPrice 10,
      Nat.mul_div_mul_left _ _ (by norm_num : (0 : Nat) < 10)]

/-- Witness for the amended C1 at the hand-computed example of the claim:
bidPrice 1000 and totalNativeAmount 12345 give 12 asset units. -/
theorem produceHtlcExtraData_numUnits_witness :
    produceHtlcExtraData testEnv 12345 [(0, []), (1, [])] =
      (newMSatFromSatoshis DefaultOnChainHtlcAmount, some [12], none) ∧
    (12345 : Nat) / 1000 = 12 := by
  have h := produceHtlcExtraData_numUnits testEnv 12345 [(0, []), (1, [])]
    [0, 1] { amounts := [], rfqID := some 1 } 1
    { bidPrice := 1000, assetID := some 7 } 7
    rfl rfl rfl rfl rfl rfl rfl (by decide)
  exact ⟨h.1.trans (by decide), by decide⟩

/-- C2 is false as stated: with local balance 2 ^ 63 and bid price 2 the
product 2 ^ 64 is not representable in the 64-bit native-unit type, yet
the bandwidth estimator returns the silently wrapped value 0 with no
error instead of an overflow error. -/
theorem paymentBandwidth_overflow_counterexample :
    paymentBandwidth testEnv (some [0, 2]) (some [2 ^ 63]) = (0, none) ∧
    2 ^ 63 * 2 = U64 ∧ U64 - 1 < 2 ^ 63 * 2 := by decide

/-- C2 (amended): on the quote-found branch the bandwidth estimator
returns (localBalance * bidPrice) mod 2 ^ 64 with no error — the exact
product whenever it fits in 64 bits, and the silently wrapped product
otherwise; no overflow error is ever reported. -/
theorem paymentBandwidth_quote_product (env : Env) (hb cb : Blob)
    (commitment : Commitment) (htlc : HtlcRecord) (rfqID : Nat)
    (quote : Quote)
    (hdc : env.decodeCommitment cb = some commitment)
    (hdh : env.decodeHtlc hb = some htlc)
    (hna : ¬(sumBalances htlc.amounts ≠ 0 ∧
        sumBalances htlc.amounts ≤ outputSum commitment.localOutputs))
    (hrfq : htlc.rfqID = some rfqID)
    (hq : env.quotes (env.scid rfqID) = some quote) :
    paymentBandwidth env (some hb) (some cb) =
      (outputSum commitment.localOutputs * quote.bidPrice % U64, none) ∧
    (outputSum commitment.localOutputs * quote.bidPrice < U64 →
      paymentBandwidth env (some hb) (some cb) =
        (outputSum commitment.localOutputs * quote.bidPrice, none)) := by
  have key : paymentBandwidth env (some hb) (some cb) =
      (outputSum commitment.localOutputs * quote.bidPrice % U64, none) := by
    simp only [paymentBandwidth, hdc, hdh]
    rw [if_neg hna]
    simp [hrfq, hq]
  exact ⟨key, fun hlt => by rw [key, Nat.mod_eq_of_lt hlt]⟩

/-- Witness for the amended C2, the end-to-end scenario of the claim:
local balance 500 asset units and bid price 2 give 1000 native units with
no error. -/
theorem paymentBandwidth_quote_product_witness :
    paymentBandwidth testEnv (some [0, 2]) (some [500]) = (1000, none) := by
  have h := paymentBandwidth_quote_product testEnv [0, 2] [500]
    { localOutputs := [500] } { amounts := [], rfqID := some 2 } 2
    { bidPrice := 2, assetID := some 7 }
    rfl rfl (by decide) rfl rfl
  exact (h.2 (by decide)).trans (by decide)

/-- C3 is false as stated: on the already-priced branch the code returns
the fixed sentinel of 21 million BTC expressed in milli-satoshis,
2100000000000000000, which is not the maximum representable 64-bit
native-unit value 2 ^ 64 - 1. -/
theorem paymentBandwidth_sentinel_counterexample :
    paymentBandwidth testEnv (some [5, 3]) (some [500]) =
      (2100000000000000000, none) ∧
    (2100000000000000000 : Nat) ≠ U64 - 1 := by decide

/-- C3 (amended): whenever both blobs decode and the decoded HTLC has a
nonzero asset-amount sum that is at most the commitment local balance,
the bandwidth estimator succeeds and returns the fixed sentinel
`btcutil.MaxSatoshi` in milli-satoshis, for every environment — so
regardless of whether a quote identifier is present or a quote can be
found. -/
theorem paymentBandwidth_sentinel (env : Env) (hb cb : Blob)
    (commitment : Commitment) (htlc : HtlcRecord)
    (hdc : env.decodeCommitment cb = some commitment)
    (hdh : env.decodeHtlc hb = some htlc)
    (hnz : sumBalances htlc.amounts ≠ 0)
    (hle : sumBalances htlc.amounts ≤ outputSum commitment.localOutputs) :
    paymentBandwidth env (some hb) (some cb) =
      (newMSatFromSatoshis maxSatoshi, none) := by
  simp only [paymentBandwidth, hdc, hdh]
  rw [if_pos ⟨hnz, hle⟩]

/-- Witness for the amended C3: HTLC asset amount 5 against local balance
500 returns the sentinel, here with an RFQ identifier whose quote lookup
would find nothing. -/
theorem paymentBandwidth_sentinel_witness :
    paymentBandwidth testEnv (some [5, 3]) (some [500]) =
      (newMSatFromSatoshis maxSatoshi, none) ∧
    testEnv.quotes (testEnv.scid 3) = none :=
  ⟨paymentBandwidth_sentinel testEnv [5, 3] [500] { localOutputs := [500] }
    { amounts := [⟨7, 5⟩], rfqID := some 3 } rfl rfl (by decide) (by decide),
   rfl⟩

/-- C4: with a quote identifier present, the already-priced branch not
applying, and no accepted quote under the derived channel identifier,
both the bandwidth estimator and the payload rewriter fail with the
distinguished quote-not-found error — an error outcome, not the
zero-bandwidth success outcome. -/
theorem quote_not_found_error (env : Env) (hb cb : Blob)
    (commitment : Commitment) (htlc : HtlcRecord) (rfqID : Nat)
    (totalAmount : Nat) (records : List (Nat × Blob)) (blob : Blob)
    (htlc2 : HtlcRecord) (rfqID2 : Nat)
    (hdc : env.decodeCommitment cb = some commitment)
    (hdh : env.decodeHtlc hb = some htlc)
    (hna : ¬(sumBalances htlc.amounts ≠ 0 ∧
        sumBalances htlc.amounts ≤ outputSum commitment.localOutputs))
    (hrfq : htlc.rfqID = some rfqID)
    (hq : env.quotes (env.scid rfqID) = none)
    (hne : records.isEmpty = false)
    (hser : env.serializeRecords records = some blob)
    (hdh2 : env.decodeHtlc blob = some htlc2)
    (hsum2 : sumBalances htlc2.amounts = 0)
    (hrfq2 : htlc2.rfqID = some rfqID2)
    (hq2 : env.quotes (env.scid rfqID2) = none) :
    paymentBandwidth env (some hb) (some cb) =
      (0, some (.noQuoteFound rfqID (env.scid rfqID))) ∧
    produceHtlcExtraData env totalAmount records =
      (0, none, some (.noQuoteFound rfqID2 (env.scid rfqID2))) := by
  constructor
  · simp only [paymentBandwidth, hdc, hdh]
    rw [if_neg hna]
    simp [hrfq, hq]
  · simp [produceHtlcExtraData, hne, hser, hdh2, hsum2, hrfq2, hq2]

/-- Witness for C4: quote identifier 3 has no accepted quote, and both
operations fail with the quote-not-found error naming it. -/
theorem quote_not_found_error_witness :
    paymentBandwidth testEnv (some [0, 3]) (some [500]) =
      (0, some (.noQuoteFound 3 3)) ∧
    produceHtlcExtraData testEnv 5000 [(0, []), (3, [])] =
      (0, none, some (.noQuoteFound 3 3)) := by
  have h := quote_not_found_error testEnv [0, 3] [500]
    { localOutputs := [500] } { amounts := [], rfqID := some 3 } 3
    5000 [(0, []), (3, [])] [0, 3] { amounts := [], rfqID := some 3 } 3
    rfl rfl (by decide) rfl rfl rfl rfl rfl rfl rfl rfl
  exact ⟨h.1.trans (by decide), h.2.trans (by decide)⟩

/-- C5: the classifier is a total case analysis on its optional funding
blob: an absent blob gives (false, no error); a present blob that
decodes as an open-channel record gives (true, no error); a present blob
that fails to decode gives (false, error) and never (true, _); being a
pure function of the blob bytes, identical bytes yield the identical
result. -/
theorem handleTraffic_cases (env : Env) (blob : Blob) :
    handleTraffic env none = (false, none) ∧
    ((env.decodeOpenChannel blob).isSome →
      handleTraffic env (some blob) = (true, none)) ∧
    (env.decodeOpenChannel blob = none →
      handleTraffic env (some blob) =
        (false, some .decodeOpenChannelFailed)) ∧
    ((handleTraffic env (some blob)).1 = true →
      env.decodeOpenChannel blob ≠ none) := by
  refine ⟨rfl, fun hs => ?_, fun hn => ?_, fun ht hn => ?_⟩
  · obtain ⟨u, hu⟩ := Option.isSome_iff_exists.mp hs
    simp [handleTraffic, hu]
  · simp [handleTraffic, hn]
  · simp [handleTraffic, hn] at ht

/-- Witness for C5 at concrete blobs: absent gives (false, none), a
decodable blob gives (true, none), an undecodable one gives
(false, error). -/
theorem handleTraffic_cases_witness :
    handleTraffic testEnv none = (false, none) ∧
    handleTraffic testEnv (some [1]) = (true, none) ∧
    handleTraffic testEnv (some [0]) =
      (false, some .decodeOpenChannelFailed) := by
  have h1 := handleTraffic_cases testEnv [1]
  have h0 := handleTraffic_cases testEnv [0]
  exact ⟨h1.1, h1.2.1 (by decide), h0.2.2.1 (by decide)⟩

/-- C6: when both blobs decode, the already-priced branch does not apply
and the decoded HTLC carries no quote identifier, the bandwidth
estimator returns zero bandwidth as a success outcome, not an error. -/
theorem paymentBandwidth_no_rfq_zero (env : Env) (hb cb : Blob)
    (commitment : Commitment) (htlc : HtlcRecord)
    (hdc : env.decodeCommitment cb = some commitment)
    (hdh : env.decodeHtlc hb = some htlc)
    (hna : ¬(sumBalances htlc.amounts ≠ 0 ∧
        sumBalances htlc.amounts ≤ outputSum commitment.localOutputs))
    (hrfq : htlc.rfqID = none) :
    paymentBandwidth env (some hb) (some cb) = (0, none) := by
  simp only [paymentBandwidth, hdc, hdh]
  rw [if_neg hna]
  simp [hrfq]

/-- Witness for C6: an HTLC with zero asset amount and no RFQ identifier
against local balance 500 yields (0, no error). -/
theorem paymentBandwidth_no_rfq_zero_witness :
    paymentBandwidth testEnv (some [0]) (some [500]) = (0, none) :=
  paymentBandwidth_no_rfq_zero testEnv [0] [500] { localOutputs := [500] }
    { amounts := [], rfqID := none } rfl rfl (by decide) rfl

/-- C7: with empty custom records the payload rewriter passes the amount
through unchanged for every environment and every amount — the input
amount, no blob and no error, consulting no codec and no quote lookup. -/
theorem produceHtlcExtraData_empty_passthrough (env : Env)
    (totalAmount : Nat) :
    produceHtlcExtraData env totalAmount [] = (totalAmount, none, none) :=
  rfl

/-- C8: when the non-empty custom records serialize to bytes that decode
to an HTLC with a nonzero asset-amount sum, the payload rewriter returns
the input amount and the original serialized blob with no error, and no
quote data influences the result. -/
theorem produceHtlcExtraData_prepriced_passthrough (env : Env)
    (totalAmount : Nat) (records : List (Nat × Blob)) (blob : Blob)
    (htlc : HtlcRecord)
    (hne : records.isEmpty = false)
    (hser : env.serializeRecords records = some blob)
    (hdec : env.decodeHtlc blob = some htlc)
    (hsum : 0 < sumBalances htlc.amounts) :
    produceHtlcExtraData env totalAmount records =
      (totalAmount, some blob, none) := by
  simp [produceHtlcExtraData, hne, hser, hdec, hsum]

/-- Witness for C8: records serializing to an HTLC carrying 5 asset units
pass through with the original amount 777 and the original blob. -/
theorem produceHtlcExtraData_prepriced_passthrough_witness :
    produceHtlcExtraData testEnv 777 [(5, []), (1, [])] =
      (777, some [5, 1], none) :=
  produceHtlcExtraData_prepriced_passthrough testEnv 777 [(5, []), (1, [])]
    [5, 1] { amounts := [⟨7, 5⟩], rfqID := some 1 } rfl rfl rfl (by decide)

/-- C9 is false as stated: the empty-records pass-through is a successful
call whose returned adjusted amount, here 0, lies strictly below the
configured dust floor of 354 satoshis (354000 milli-satoshis). -/
theorem dust_floor_counterexample :
    produceHtlcExtraData testEnv 0 [] = (0, none, none) ∧
    (0 : Nat) < newMSatFromSatoshis DefaultOnChainHtlcAmount := by decide

/-- C9 (amended): whenever the payload rewriter succeeds on the rewrite
path (quote found, asset identifier present), the adjusted native-unit
amount it returns is the fixed chain-defined dust-floor minimum — not
totalNativeAmount — and that amount is at least the configured dust
floor; pass-through successes instead return totalNativeAmount
unchanged, which may lie below the floor. -/
theorem produceHtlcExtraData_dust_floor (env : Env) (totalAmount : Nat)
    (records : List (Nat × Blob)) (blob : Blob) (htlc : HtlcRecord)
    (rfqID : Nat) (quote : Quote) (assetID : Nat)
    (hne : records.isEmpty = false)
    (hser : env.serializeRecords records = some blob)
    (hdec : env.decodeHtlc blob = some htlc)
    (hsum : sumBalances htlc.amounts = 0)
    (hrfq : htlc.rfqID = some rfqID)
    (hq : env.quotes (env.scid rfqID) = some quote)
    (haid : quote.assetID = some assetID)
    ( _hbid : 0 < quote.bidPrice) :
    (produceHtlcExtraData env totalAmount records).1 =
      newMSatFromSatoshis DefaultOnChainHtlcAmount ∧
    (produceHtlcExtraData env totalAmount records).2.2 = none ∧
    DefaultOnChainHtlcAmount * 1000 ≤
      (produceHtlcExtraData env totalAmount records).1 := by
  have key : produceHtlcExtraData env totalAmount records =
      (newMSatFromSatoshis DefaultOnChainHtlcAmount,
       some (env.encodeHtlc { htlc with amounts :=
         [⟨assetID, totalAmount * 10 % U64 / quote.bidPrice / 10⟩] }),
       none) := by
    simp [produceHtlcExtraData, hne, hser, hdec, hsum, hrfq, hq, haid]
  rw [key]
  refine ⟨rfl, rfl, ?_⟩
  show DefaultOnChainHtlcAmount * 1000 ≤
    newMSatFromSatoshis DefaultOnChainHtlcAmount
  decide

/-- Witness for the amended C9: a successful rewrite of a 5000
milli-satoshi HTLC returns the dust-floor amount, not 5000. -/
theorem produceHtlcExtraData_dust_floor_witness :
    (produceHtlcExtraData testEnv 5000 [(0, []), (1, [])]).1 =
      newMSatFromSatoshis DefaultOnChainHtlcAmount ∧
    (produceHtlcExtraData testEnv 5000 [(0, []), (1, [])]).2.2 = none := by
  have h := produceHtlcExtraData_dust_floor testEnv 5000 [(0, []), (1, [])]
    [0, 1] { amounts := [], rfqID := some 1 } 1
    { bidPrice := 1000, assetID := some 7 } 7
    rfl rfl rfl rfl rfl rfl rfl (by decide)
  exact ⟨h.1, h.2.1⟩

/-- C10: when the found quote carries an asset identifier and its bid
price exceeds ten times the total native amount, the computed unit count
is zero, yet the payload rewriter succeeds, returning the dust-floor
amount and a rewritten blob carrying a single (assetID, 0) entry with no
error. -/
theorem produceHtlcExtraData_zero_units (env : Env) (totalAmount : Nat)
    (records : List (Nat × Blob)) (blob : Blob) (htlc : HtlcRecord)
    (rfqID : Nat) (quote : Quote) (assetID : Nat)
    (hne : records.isEmpty = false)
    (hser : env.serializeRecords records = some blob)
    (hdec : env.decodeHtlc blob = some htlc)
    (hsum : sumBalances htlc.amounts = 0)
    (hrfq : htlc.rfqID = some rfqID)
    (hq : env.quotes (env.scid rfqID) = some quote)
    (haid : quote.assetID = some assetID)
    (hbid : 10 * totalAmount < quote.bidPrice) :
    produceHtlcExtraData env totalAmount records =
      (newMSatFromSatoshis DefaultOnChainHtlcAmount,
       some (env.encodeHtlc { htlc with amounts := [⟨assetID, 0⟩] }),
       none) := by
  have hz : totalAmount * 10 % U64 / quote.bidPrice = 0 :=
    Nat.div_eq_of_lt (lt_of_le_of_lt (Nat.mod_le _ _)
      (by rw [mul_comm]; exact hbid))
  simp [produceHtlcExtraData, hne, hser, hdec, hsum, hrfq, hq, haid, hz]

/-- Witness for C10: totalNativeAmount 50 against bid price 1000 (greater
than ten times 50) succeeds with zero asset units in the rewritten
blob. -/
theorem produceHtlcExtraData_zero_units_witness :
    produceHtlcExtraData testEnv 50 [(0, []), (1, [])] =
      (newMSatFromSatoshis DefaultOnChainHtlcAmount, some [0], none) := by
  have h := produceHtlcExtraData_zero_units testEnv 50 [(0, []), (1, [])]
    [0, 1] { amounts := [], rfqID := some 1 } 1
    { bidPrice := 1000, assetID := some 7 } 7
    rfl rfl rfl rfl rfl rfl rfl (by decide)
  exact h.trans (by decide)

end AuxShaper
